import Mathlib

set_option maxRecDepth 100000

/-!
Shallow embedding of the Robokassa payment wrapper
(`src/payments/robokassa.py`) and of the application's exception module
(`src/exceptions.py`), together with proofs of the specification claims.

Python strings are Lean `String`s, `bytes` are `List Nat` (each entry a
byte value `< 256`), Python `Decimal` is a pair of an integer mantissa and
a decimal scale, and Python dicts of strings are association lists in
insertion order (keys unique).  Machine words are `Nat` reduced mod `2^32`.
-/

namespace Robokassa

/-- Truncate to a 32-bit word. -/
def w32 (n : Nat) : Nat := n % 4294967296

/-- Rotate a 32-bit word left by `s` bits (`0 < s < 32`, `x < 2^32`). -/
def rotl32 (x s : Nat) : Nat := w32 (x <<< s) ||| (x >>> (32 - s))

/-- Bitwise complement on 32-bit words. -/
def not32 (x : Nat) : Nat := Nat.xor x 4294967295

/-- The 64 MD5 round constants `floor(abs(sin(i+1)) * 2^32)` (RFC 1321). -/
def md5K : List Nat :=
  [0xd76aa478, 0xe8c7b756, 0x242070db, 0xc1bdceee,
   0xf57c0faf, 0x4787c62a, 0xa8304613, 0xfd469501,
   0x698098d8, 0x8b44f7af, 0xffff5bb1, 0x895cd7be,
   0x6b901122, 0xfd987193, 0xa679438e, 0x49b40821,
   0xf61e2562, 0xc040b340, 0x265e5a51, 0xe9b6c7aa,
   0xd62f105d, 0x02441453, 0xd8a1e681, 0xe7d3fbc8,
   0x21e1cde6, 0xc33707d6, 0xf4d50d87, 0x455a14ed,
   0xa9e3e905, 0xfcefa3f8, 0x676f02d9, 0x8d2a4c8a,
   0xfffa3942, 0x8771f681, 0x6d9d6122, 0xfde5380c,
   0xa4beea44, 0x4bdecfa9, 0xf6bb4b60, 0xbebfbc70,
   0x289b7ec6, 0xeaa127fa, 0xd4ef3085, 0x04881d05,
   0xd9d4d039, 0xe6db99e5, 0x1fa27cf8, 0xc4ac5665,
   0xf4292244, 0x432aff97, 0xab9423a7, 0xfc93a039,
   0x655b59c3, 0x8f0ccc92, 0xffeff47d, 0x85845dd1,
   0x6fa87e4f, 0xfe2ce6e0, 0xa3014314, 0x4e0811a1,
   0xf7537e82, 0xbd3af235, 0x2ad7d2bb, 0xeb86d391]

/-- The 64 MD5 per-round left-rotation amounts (RFC 1321). -/
def md5S : List Nat :=
  [7, 12, 17, 22, 7, 12, 17, 22, 7, 12, 17, 22, 7, 12, 17, 22,
   5, 9, 14, 20, 5, 9, 14, 20, 5, 9, 14, 20, 5, 9, 14, 20,
   4, 11, 16, 23, 4, 11, 16, 23, 4, 11, 16, 23, 4, 11, 16, 23,
   6, 10, 15, 21, 6, 10, 15, 21, 6, 10, 15, 21, 6, 10, 15, 21]

/-- MD5 nonlinear round function for round `i` on words `b c d`. -/
def md5F (i b c d : Nat) : Nat :=
  if i < 16 then Nat.lor (Nat.land b c) (Nat.land (not32 b) d)
  else if i < 32 then Nat.lor (Nat.land d b) (Nat.land (not32 d) c)
  else if i < 48 then Nat.xor (Nat.xor b c) d
  else Nat.xor c (Nat.lor b (not32 d))

/-- MD5 message-word index used in round `i`. -/
def md5G (i : Nat) : Nat :=
  if i < 16 then i
  else if i < 32 then (5 * i + 1) % 16
  else if i < 48 then (3 * i + 5) % 16
  else (7 * i) % 16

/-- One MD5 round: `m` maps a word index to the message word. -/
def md5Step (m : Nat → Nat) (st : Nat × Nat × Nat × Nat) (i : Nat) :
    Nat × Nat × Nat × Nat :=
  let a := st.1
  let b := st.2.1
  let c := st.2.2.1
  let d := st.2.2.2
  let f := w32 (md5F i b c d + a + md5K.getD i 0 + m (md5G i))
  (d, w32 (b + rotl32 f (md5S.getD i 0)), b, c)

/-- Process one 64-byte block (little-endian words) into the state. -/
def md5Block (st : Nat × Nat × Nat × Nat) (block : List Nat) :
    Nat × Nat × Nat × Nat :=
  let m := fun j => block.getD (4 * j) 0 + 256 * block.getD (4 * j + 1) 0 +
    65536 * block.getD (4 * j + 2) 0 + 16777216 * block.getD (4 * j + 3) 0
  let r := (List.range 64).foldl (md5Step m) st
  (w32 (st.1 + r.1), w32 (st.2.1 + r.2.1),
   w32 (st.2.2.1 + r.2.2.1), w32 (st.2.2.2 + r.2.2.2))

/-- A 64-bit value as 8 little-endian bytes. -/
def le64 (n : Nat) : List Nat :=
  [n % 256, n / 256 % 256, n / 65536 % 256, n / 16777216 % 256,
   n / 4294967296 % 256, n / 1099511627776 % 256,
   n / 281474976710656 % 256, n / 72057594037927936 % 256]

/-- A 32-bit word as 4 little-endian bytes. -/
def le32 (n : Nat) : List Nat :=
  [n % 256, n / 256 % 256, n / 65536 % 256, n / 16777216 % 256]

/-- MD5 padding: `0x80`, zeros to 56 mod 64, then the bit length (LE64). -/
def md5Pad (msg : List Nat) : List Nat :=
  let padLen := (119 - msg.length % 64) % 64
  msg ++ 128 :: List.replicate padLen 0 ++
    le64 ((8 * msg.length) % 18446744073709551616)

/-- Split a byte list into 64-byte chunks; `fuel` bounds the recursion
(one unit per chunk, so the list's length always suffices). -/
def chunksGo : Nat → List Nat → List (List Nat)
  | 0, _ => []
  | _, [] => []
  | fuel + 1, x :: xs => ((x :: xs).take 64) :: chunksGo fuel (xs.drop 63)

/-- Split a byte list into 64-byte chunks. -/
def chunks64 (l : List Nat) : List (List Nat) := chunksGo l.length l

/-- The 16 digest bytes of MD5 applied to a byte string. -/
def md5Bytes (msg : List Nat) : List Nat :=
  let st := (chunks64 (md5Pad msg)).foldl md5Block
    (0x67452301, 0xefcdab89, 0x98badcfe, 0x10325476)
  le32 st.1 ++ le32 st.2.1 ++ le32 st.2.2.1 ++ le32 st.2.2.2

/-- Lowercase hexadecimal digit for `n < 16`. -/
def hexDigit (n : Nat) : Char := Char.ofNat (if n < 10 then 48 + n else 87 + n)

/-- Lowercase hex rendering of a byte list, two digits per byte. -/
def bytesToHex (bs : List Nat) : String :=
  String.mk ((bs.map fun b => [hexDigit (b / 16), hexDigit (b % 16)]).flatten)

/-- UTF-8 encoding of one code point, as Python `str.encode()` does. -/
def utf8Char (c : Char) : List Nat :=
  let n := c.toNat
  if n < 128 then [n]
  else if n < 2048 then [192 + n / 64, 128 + n % 64]
  else if n < 65536 then [224 + n / 4096, 128 + n / 64 % 64, 128 + n % 64]
  else [240 + n / 262144, 128 + n / 4096 % 64, 128 + n / 64 % 64, 128 + n % 64]

/-- UTF-8 bytes of a string (Python `s.encode()`). -/
def strBytes (s : String) : List Nat := (s.data.map utf8Char).flatten

/-- `hashlib.md5(s.encode()).hexdigest()`: lowercase hex MD5 of a string. -/
def md5Hex (s : String) : String := bytesToHex (md5Bytes (strBytes s))

/-!
Python `Decimal` values and the `f"{d:.2f}"` fixed-point formatting used by
`_generate_signature` and `get_payment_url`.  A `Decimal` is modelled by an
integer mantissa and a decimal scale: the value is `mantissa / 10 ^ scale`.
Python formats with `ROUND_HALF_EVEN` quantization to two fractional digits;
a negative zero result keeps the minus sign of the mantissa.
-/

structure PyDecimal where
  mantissa : Int
  scale : Nat
deriving DecidableEq

/-- Round `a / p` to the nearest integer, ties to even (`p > 0`). -/
def halfEvenDiv (a p : Nat) : Nat :=
  let q := a / p
  let r := a % p
  if p < 2 * r then q + 1
  else if 2 * r < p then q
  else if q % 2 = 0 then q else q + 1

/-- `|d| * 100` rounded half-even to an integer (quantization to 2 digits). -/
def quantizeAbs2 (d : PyDecimal) : Nat :=
  if d.scale ≤ 2 then d.mantissa.natAbs * 10 ^ (2 - d.scale)
  else halfEvenDiv d.mantissa.natAbs (10 ^ (d.scale - 2))

/-- Two-digit zero-padded rendering of `n < 100`. -/
def twoDigits (n : Nat) : String := (if n < 10 then "0" else "") ++ toString n

/-- Python `f"{d:.2f}"` on a `Decimal`. -/
def formatF2 (d : PyDecimal) : String :=
  let a := quantizeAbs2 d
  (if d.mantissa < 0 then "-" else "") ++
    toString (a / 100) ++ "." ++ twoDigits (a % 100)

/-!
Python ordering on strings (code-point lexicographic) and `sorted` on the
items of a string-to-string dict, which compares `(key, value)` tuples
lexicographically.  `sorted` is modelled by Mathlib's stable insertion sort.
-/

/-- Code-point lexicographic strict order on character lists. -/
def ltCharList : List Char → List Char → Bool
  | _, [] => false
  | [], _ :: _ => true
  | a :: as, b :: bs =>
    if a.toNat < b.toNat then true
    else if b.toNat < a.toNat then false
    else ltCharList as bs

/-- Python `<` on strings. -/
def pyStrLt (a b : String) : Bool := ltCharList a.data b.data

/-- Python `<` on `(key, value)` string pairs (tuple comparison). -/
def pairLt (p q : String × String) : Bool :=
  pyStrLt p.1 q.1 || (p.1 == q.1 && pyStrLt p.2 q.2)

/-- The non-strict order used to model `sorted`: `p` may precede `q`. -/
def pairLe (p q : String × String) : Prop := pairLt q p = false

instance : DecidableRel pairLe := fun _ _ => instDecidableEqBool _ _

/-- Python `sorted(d.items())` on an insertion-ordered association list. -/
def pySorted (l : List (String × String)) : List (String × String) :=
  List.insertionSort pairLe l

/-!
The embedding of `src/payments/robokassa.py` itself.  Python dicts of
strings are association lists in insertion order; an absent optional dict
argument (`None`) is modelled by `[]`, which the code cannot distinguish
from `{}` (both are falsy and `update`/`or {}` treat them identically).
-/

structure RobokassaConfig where
  merchant_login : String
  password1 : String
  password2 : String
  test_mode : Bool
deriving DecidableEq

/-- `RobokassaConfig.base_url`. -/
def base_url (c : RobokassaConfig) : String :=
  if c.test_mode then "https://test.robokassa.ru" else "https://auth.robokassa.ru"

/-- `RobokassaConfig.api_url`. -/
def api_url : String := "https://api.robokassa.ru"

/-- Python `sep.join(parts)`. -/
def pyJoin (sep : String) : List String → String
  | [] => ""
  | [x] => x
  | x :: y :: t => x ++ sep ++ pyJoin sep (y :: t)

/-- `RobokassaPayment._generate_signature`: MD5 hex of
`merchant_login:amount:invoice_id:password` with sorted `key=value` pairs
appended when `extra_params` is truthy. -/
def generate_signature (merchant_login : String) (sum_amount : PyDecimal)
    (invoice_id : String) (password : String)
    (extra_params : List (String × String)) : String :=
  let amount_str := formatF2 sum_amount
  let base := [merchant_login, amount_str, invoice_id, password]
  let signature_parts :=
    if extra_params.isEmpty then base
    else base ++ (pySorted extra_params).map fun kv => kv.1 ++ "=" ++ kv.2
  md5Hex (pyJoin ":" signature_parts)

/-- Bytes left unescaped by `urllib.parse.quote_plus` with `safe=''`:
ASCII alphanumerics and `_ . - ~`. -/
def isUrlSafe (b : Nat) : Bool :=
  (48 ≤ b && b ≤ 57) || (65 ≤ b && b ≤ 90) || (97 ≤ b && b ≤ 122) ||
  b == 95 || b == 46 || b == 45 || b == 126

/-- Uppercase hexadecimal digit for `n < 16` (percent-escapes). -/
def hexDigitU (n : Nat) : Char := Char.ofNat (if n < 10 then 48 + n else 55 + n)

/-- `urllib.parse.quote_plus`: space to `+`, unsafe bytes to `%XX`. -/
def quote_plus (s : String) : String :=
  String.mk (((strBytes s).map fun b =>
    if isUrlSafe b then [Char.ofNat b]
    else if b == 32 then [Char.ofNat 43]
    else [Char.ofNat 37, hexDigitU (b / 16), hexDigitU (b % 16)]).flatten)

/-- `urllib.parse.urlencode` on an insertion-ordered dict. -/
def urlencode (params : List (String × String)) : String :=
  pyJoin "&" (params.map fun kv => quote_plus kv.1 ++ "=" ++ quote_plus kv.2)

/-- Python `d[k] = v` on a dict: replace in place or append. -/
def dictSet (d : List (String × String)) (k v : String) :
    List (String × String) :=
  if d.any fun p => p.1 == k then
    d.map fun p => if p.1 == k then (p.1, v) else p
  else d ++ [(k, v)]

/-- Python `d.update(e)` on dicts: item-wise `dictSet` in `e`'s order. -/
def dictUpdate (d e : List (String × String)) : List (String × String) :=
  e.foldl (fun acc kv => dictSet acc kv.1 kv.2) d

/-- Python truthiness of an optional string (`None` and `""` are falsy). -/
def pyTruthy : Option String → Bool
  | none => false
  | some s => !(s == "")

/-- The `params` dict built by `RobokassaPayment.get_payment_url` just
before `urlencode`: six reserved keys, optional `Email` / `ReturnURL`,
then `params.update(extra_params)`. -/
def payment_params (cfg : RobokassaConfig) (invoice_id : String)
    (amount : PyDecimal) (description : String) (email : Option String)
    (extra_params : List (String × String)) (return_url : Option String) :
    List (String × String) :=
  let signature := generate_signature cfg.merchant_login amount invoice_id
    cfg.password1 extra_params
  let params := [("MerchantLogin", cfg.merchant_login),
    ("Sum", formatF2 amount), ("InvoiceID", invoice_id),
    ("Description", description), ("SignatureValue", signature),
    ("IsTest", if cfg.test_mode then "1" else "0")]
  let params := if pyTruthy email then params ++ [("Email", email.getD "")]
    else params
  let params := if pyTruthy return_url then
    params ++ [("ReturnURL", return_url.getD "")] else params
  if extra_params.isEmpty then params else dictUpdate params extra_params

/-- `RobokassaPayment.get_payment_url`. -/
def get_payment_url (cfg : RobokassaConfig) (invoice_id : String)
    (amount : PyDecimal) (description : String) (email : Option String)
    (extra_params : List (String × String)) (return_url : Option String) :
    String :=
  base_url cfg ++ "/Merchant/Index?" ++
    urlencode (payment_params cfg invoice_id amount description email
      extra_params return_url)

/-- Python `str.lower()`; ASCII case mapping suffices for the hex digests
and ASCII signatures this code compares. -/
def pyLower (s : String) : String := String.mk (s.data.map Char.toLower)

/-- `RobokassaPayment.verify_result_signature`: recompute with `password2`
and compare lowercased. -/
def verify_result_signature (cfg : RobokassaConfig) (sum_amount : PyDecimal)
    (invoice_id signature : String)
    (extra_params : List (String × String)) : Bool :=
  let expected := generate_signature cfg.merchant_login sum_amount invoice_id
    cfg.password2 extra_params
  pyLower signature == pyLower expected

/-- The dict returned by `RobokassaNotification.process_result_notification`:
`failure` is `{'success': False, 'error': ..., 'invoice_id': ...}` and `ok`
is `{'success': True, 'invoice_id': ..., 'amount': ..., 'extra_params': ...}`
(Python's `float(sum_amount)` is modelled by the decimal value itself). -/
inductive NotificationOutcome where
  | failure (error : String) (invoice_id : String)
  | ok (invoice_id : String) (amount : PyDecimal)
      (extra_params : List (String × String))
deriving DecidableEq

/-- `RobokassaNotification.process_result_notification`. -/
def process_result_notification (cfg : RobokassaConfig)
    (sum_amount : PyDecimal) (invoice_id signature : String)
    (extra_params : List (String × String)) : NotificationOutcome :=
  if !verify_result_signature cfg sum_amount invoice_id signature extra_params
  then NotificationOutcome.failure "Invalid signature" invoice_id
  else NotificationOutcome.ok invoice_id sum_amount extra_params

/-- `RobokassaNotification.get_notification_response`. -/
def get_notification_response (invoice_id : String) : String :=
  "OK" ++ invoice_id

/-- One outbound HTTP request as issued by `requests.get`/`requests.post`. -/
structure HttpRequest where
  method : String
  url : String
  params : List (String × String)
  timeout : Nat
deriving DecidableEq

/-- Outcome of one transport attempt: `exc` is a raised
`requests.RequestException` with its `str(e)`; `resp` is a response, whose
`raise_for_status()` raises an `HTTPError` carrying the given message when
the first field is `some`. -/
inductive HttpOutcome (β : Type) where
  | exc (message : String)
  | resp (raise_error : Option String) (body : β)

/-- Return value of `check_payment_status`: `failure` is the dict
`{'success': False, 'error': ...}`, `payload` is the parsed
`response.json()` body. -/
inductive StatusResult (β : Type) where
  | failure (error : String)
  | payload (body : β)
deriving DecidableEq

/-- `RobokassaPayment.check_payment_status`, with the network modelled as an
explicit transport oracle; also returns the list of requests issued, in
order, so that single-attempt behaviour is visible. -/
def check_payment_status {β : Type} (invoice_id : String)
    (transport : HttpRequest → HttpOutcome β) :
    StatusResult β × List HttpRequest :=
  let req : HttpRequest :=
    ⟨"GET", api_url ++ "/GetInvoiceInfo", [("InvoiceID", invoice_id)], 10⟩
  match transport req with
  | HttpOutcome.exc msg => (StatusResult.failure msg, [req])
  | HttpOutcome.resp (some msg) _ => (StatusResult.failure msg, [req])
  | HttpOutcome.resp none body => (StatusResult.payload body, [req])

/-- The exception classes defined by `src/exceptions.py` (each takes a
message and an error code; all derive directly from `Exception`). -/
def appExceptionClasses : List String :=
  ["PaymentException", "UserException", "DatabaseException"]

/-- The digest input as the spec words it (section 4.1): concatenate
`merchantLogin:amount:invoiceId:secret`, then, if `extraParams` is
non-empty, append each `key=value` pair sorted ascending by key, joined
by `:`. -/
def specSignatureString (merchantLogin : String) (amount : PyDecimal)
    (invoiceId secret : String)
    (extraParams : List (String × String)) : String :=
  merchantLogin ++ ":" ++ formatF2 amount ++ ":" ++ invoiceId ++ ":" ++
    secret ++
    (if extraParams.isEmpty then ""
     else ":" ++ pyJoin ":" ((pySorted extraParams).map fun kv =>
       kv.1 ++ "=" ++ kv.2))

/-- Lowercase hexadecimal characters. -/
def isLowerHexChar (c : Char) : Bool :=
  (48 ≤ c.toNat && c.toNat ≤ 57) || (97 ≤ c.toNat && c.toNat ≤ 102)

/-- First value stored under a key in an association list (the value a
query-string key carries in the rendered URL). -/
def lookupParam : List (String × String) → String → Option String
  | [], _ => none
  | p :: t, k => if p.1 == k then some p.2 else lookupParam t k

/-- The reserved query parameters of the outbound payment URL. -/
def reservedKeys : List String :=
  ["MerchantLogin", "Sum", "InvoiceID", "Description", "SignatureValue",
   "IsTest", "Email", "ReturnURL"]

/-!  Structural facts about the MD5 digest and its hex rendering. -/

lemma md5Bytes_length (msg : List Nat) : (md5Bytes msg).length = 16 := by
  simp [md5Bytes, le32]

lemma md5Bytes_lt (msg : List Nat) : ∀ b ∈ md5Bytes msg, b < 256 := by
  intro b hb
  simp only [md5Bytes, le32, List.mem_append, List.mem_cons,
    List.not_mem_nil, or_false] at hb
  omega

lemma bytesToHex_length (bs : List Nat) :
    (bytesToHex bs).length = 2 * bs.length := by
  induction bs with
  | nil => rfl
  | cons b t ih =>
    simp only [bytesToHex, String.length, String.data] at ih ⊢
    simp only [List.map_cons, List.flatten_cons, List.length_append,
      List.length_cons, List.length_nil] at ih ⊢
    omega

lemma hexDigit_hex {n : Nat} (h : n < 16) : isLowerHexChar (hexDigit n) = true := by
  interval_cases n <;> decide

lemma bytesToHex_all_hex (bs : List Nat) (hb : ∀ b ∈ bs, b < 256) :
    (bytesToHex bs).data.all isLowerHexChar = true := by
  induction bs with
  | nil => rfl
  | cons b t ih =>
    have h1 : b / 16 < 16 := by
      have := hb b (List.mem_cons_self b t)
      omega
    have h2 : b % 16 < 16 := Nat.mod_lt _ (by norm_num)
    have ihx := ih fun x hx => hb x (List.mem_cons_of_mem b hx)
    simp only [bytesToHex, String.data] at ihx ⊢
    simp only [List.map_cons, List.flatten_cons, List.all_append,
      List.all_cons, List.all_nil, Bool.and_true, Bool.and_eq_true] at ihx ⊢
    exact ⟨⟨hexDigit_hex h1, hexDigit_hex h2⟩, ihx⟩

lemma md5Hex_length (s : String) : (md5Hex s).length = 32 := by
  rw [md5Hex, bytesToHex_length, md5Bytes_length]

lemma md5Hex_all_hex (s : String) :
    (md5Hex s).data.all isLowerHexChar = true :=
  bytesToHex_all_hex _ (md5Bytes_lt _)

lemma toLower_hexDigit {n : Nat} (h : n < 16) :
    Char.toLower (hexDigit n) = hexDigit n := by
  interval_cases n <;> decide

lemma pyLower_bytesToHex (bs : List Nat) (hb : ∀ b ∈ bs, b < 256) :
    pyLower (bytesToHex bs) = bytesToHex bs := by
  induction bs with
  | nil => rfl
  | cons b t ih =>
    have h1 : b / 16 < 16 := by
      have := hb b (List.mem_cons_self b t)
      omega
    have h2 : b % 16 < 16 := Nat.mod_lt _ (by norm_num)
    have ihx := ih fun x hx => hb x (List.mem_cons_of_mem b hx)
    simp only [pyLower, bytesToHex, String.data, List.map_cons,
      List.flatten_cons, List.map_append] at ihx ⊢
    rw [toLower_hexDigit h1, toLower_hexDigit h2]
    have hrest := congrArg String.data ihx
    simp only [String.data] at hrest
    simp only [List.map_nil, List.nil_append, hrest]

lemma pyLower_md5Hex (s : String) : pyLower (md5Hex s) = md5Hex s :=
  pyLower_bytesToHex _ (md5Bytes_lt _)

/-!  The signature string built by the code versus the spec's wording. -/

lemma pyJoin_parts (a b c d : String) (ps : List String) :
    pyJoin ":" (a :: b :: c :: d :: ps) =
      a ++ ":" ++ b ++ ":" ++ c ++ ":" ++ d ++
        (if ps.isEmpty then "" else ":" ++ pyJoin ":" ps) := by
  cases ps with
  | nil => simp [pyJoin, String.append_assoc]
  | cons p t => cases t <;> simp [pyJoin, String.append_assoc]

lemma pySorted_length (l : List (String × String)) :
    (pySorted l).length = l.length :=
  (List.perm_insertionSort pairLe l).length_eq

lemma genSig_eq_spec (ml : String) (amt : PyDecimal) (inv pw : String)
    (extras : List (String × String)) :
    generate_signature ml amt inv pw extras =
      md5Hex (specSignatureString ml amt inv pw extras) := by
  by_cases h : extras.isEmpty = true
  · simp only [generate_signature, specSignatureString, h, if_true]
    rw [pyJoin_parts]
    simp [String.append_assoc]
  · have hb : extras.isEmpty = false := by
      cases hx : extras.isEmpty
      · rfl
      · exact absurd hx h
    have hne : extras ≠ [] := by
      intro hc
      rw [hc] at hb
      simp at hb
    have hlen : (pySorted extras).length ≠ 0 := by
      rw [pySorted_length]
      exact fun hc => hne (List.length_eq_zero.mp hc)
    have hmap : (((pySorted extras).map fun kv =>
        kv.1 ++ "=" ++ kv.2).isEmpty) = false := by
      cases hs : pySorted extras with
      | nil => exact absurd (by rw [hs]; rfl) hlen
      | cons q t => simp
    have hsne : pySorted extras ≠ [] := fun hc => hlen (by rw [hc]; rfl)
    simp [generate_signature, specSignatureString, hb, pyJoin_parts, hmap,
      hsne, String.append_assoc]

/-!  The code-point order underlying Python `sorted` is a total order. -/

lemma char_toNat_inj {a b : Char} (h : a.toNat = b.toNat) : a = b :=
  Char.ext (UInt32.ext h)

lemma ltCharList_asymm : ∀ as bs : List Char,
    ltCharList as bs = true → ltCharList bs as = true → False
  | [], [], p, _ => by simp [ltCharList] at p
  | [], _ :: _, _, q => by simp [ltCharList] at q
  | _ :: _, [], p, _ => by simp [ltCharList] at p
  | a :: as, b :: bs, p, q => by
    simp only [ltCharList] at p q
    by_cases h1 : a.toNat < b.toNat
    · by_cases h2 : b.toNat < a.toNat
      · omega
      · rw [if_neg h2, if_pos h1] at q
        exact Bool.noConfusion q
    · by_cases h2 : b.toNat < a.toNat
      · rw [if_neg h1, if_pos h2] at p
        exact Bool.noConfusion p
      · rw [if_neg h1, if_neg h2] at p
        rw [if_neg h2, if_neg h1] at q
        exact ltCharList_asymm as bs p q

lemma ltCharList_conn : ∀ as bs : List Char,
    ltCharList as bs = false → ltCharList bs as = false → as = bs
  | [], [], _, _ => rfl
  | [], _ :: _, p, _ => by simp [ltCharList] at p
  | _ :: _, [], _, q => by simp [ltCharList] at q
  | a :: as, b :: bs, p, q => by
    simp only [ltCharList] at p q
    by_cases h1 : a.toNat < b.toNat
    · rw [if_pos h1] at p
      exact Bool.noConfusion p
    · by_cases h2 : b.toNat < a.toNat
      · rw [if_pos h2] at q
        exact Bool.noConfusion q
      · rw [if_neg h1, if_neg h2] at p
        rw [if_neg h2, if_neg h1] at q
        have hab : a = b := char_toNat_inj (by omega)
        rw [hab, ltCharList_conn as bs p q]

lemma ltCharList_trans : ∀ as bs cs : List Char,
    ltCharList as bs = true → ltCharList bs cs = true →
    ltCharList as cs = true
  | _, bs, [], _, q => by cases bs <;> simp [ltCharList] at q
  | [], _, _ :: _, _, _ => by simp [ltCharList]
  | _ :: _, [], _ :: _, p, _ => by simp [ltCharList] at p
  | a :: as, b :: bs, c :: cs, p, q => by
    simp only [ltCharList] at p q ⊢
    by_cases h1 : a.toNat < b.toNat
    · by_cases h3 : b.toNat < c.toNat
      · rw [if_pos (show a.toNat < c.toNat by omega)]
      · by_cases h4 : c.toNat < b.toNat
        · rw [if_neg h3, if_pos h4] at q
          exact Bool.noConfusion q
        · rw [if_pos (show a.toNat < c.toNat by omega)]
    · by_cases h2 : b.toNat < a.toNat
      · rw [if_neg h1, if_pos h2] at p
        exact Bool.noConfusion p
      · rw [if_neg h1, if_neg h2] at p
        by_cases h3 : b.toNat < c.toNat
        · rw [if_pos (show a.toNat < c.toNat by omega)]
        · by_cases h4 : c.toNat < b.toNat
          · rw [if_neg h3, if_pos h4] at q
            exact Bool.noConfusion q
          · rw [if_neg h3, if_neg h4] at q
            rw [if_neg (show ¬a.toNat < c.toNat by omega),
              if_neg (show ¬c.toNat < a.toNat by omega)]
            exact ltCharList_trans as bs cs p q

lemma pyStrLt_conn {a b : String} (p : pyStrLt a b = false)
    (q : pyStrLt b a = false) : a = b := by
  cases a with
  | mk d1 =>
    cases b with
    | mk d2 => exact congrArg String.mk (ltCharList_conn d1 d2 p q)

lemma pairLt_asymm {p q : String × String} (hp : pairLt p q = true)
    (hq : pairLt q p = true) : False := by
  simp only [pairLt, Bool.or_eq_true, Bool.and_eq_true, beq_iff_eq] at hp hq
  rcases hp with hp | ⟨hpe, hpv⟩
  · rcases hq with hq | ⟨hqe, hqv⟩
    · exact ltCharList_asymm _ _ hp hq
    · rw [hqe] at hp
      exact ltCharList_asymm _ _ hp hp
  · rcases hq with hq | ⟨hqe, hqv⟩
    · rw [hpe] at hq
      exact ltCharList_asymm _ _ hq hq
    · exact ltCharList_asymm _ _ hpv hqv

lemma pairLt_conn {p q : String × String} (hp : pairLt p q = false)
    (hq : pairLt q p = false) : p = q := by
  simp only [pairLt, Bool.or_eq_false_iff, Bool.and_eq_false_iff] at hp hq
  obtain ⟨hp1, hp2⟩ := hp
  obtain ⟨hq1, hq2⟩ := hq
  have hkey : p.1 = q.1 := pyStrLt_conn hp1 hq1
  rcases hp2 with hp2 | hp2
  · rw [beq_eq_false_iff_ne] at hp2
    exact absurd hkey hp2
  · rcases hq2 with hq2 | hq2
    · rw [beq_eq_false_iff_ne] at hq2
      exact absurd hkey.symm hq2
    · exact Prod.ext_iff.mpr ⟨hkey, pyStrLt_conn hp2 hq2⟩

lemma pairLt_trans {p q r : String × String} (h1 : pairLt p q = true)
    (h2 : pairLt q r = true) : pairLt p r = true := by
  simp only [pairLt, Bool.or_eq_true, Bool.and_eq_true, beq_iff_eq]
    at h1 h2 ⊢
  rcases h1 with h1 | ⟨h1e, h1v⟩
  · rcases h2 with h2 | ⟨h2e, h2v⟩
    · exact Or.inl (ltCharList_trans _ _ _ h1 h2)
    · exact Or.inl (by rw [← h2e]; exact h1)
  · rcases h2 with h2 | ⟨h2e, h2v⟩
    · exact Or.inl (by rw [h1e]; exact h2)
    · exact Or.inr ⟨h1e.trans h2e, ltCharList_trans _ _ _ h1v h2v⟩

instance : IsTotal (String × String) pairLe :=
  ⟨fun p q => by
    unfold pairLe
    cases h1 : pairLt q p
    · exact Or.inl rfl
    · cases h2 : pairLt p q
      · exact Or.inr rfl
      · exact (pairLt_asymm h2 h1).elim⟩

instance : IsTrans (String × String) pairLe :=
  ⟨fun p q r hpq hqr => by
    unfold pairLe at *
    cases hrp : pairLt r p
    · rfl
    · exfalso
      cases hpq2 : pairLt p q
      · have hple : p = q := pairLt_conn hpq2 hpq
        rw [hple] at hrp
        rw [hrp] at hqr
        exact Bool.noConfusion hqr
      · have hrq : pairLt r q = true := pairLt_trans hrp hpq2
        rw [hrq] at hqr
        exact Bool.noConfusion hqr⟩

instance : IsAntisymm (String × String) pairLe :=
  ⟨fun p q h1 h2 => pairLt_conn h2 h1⟩

lemma pySorted_congr {l₁ l₂ : List (String × String)} (h : l₁.Perm l₂) :
    pySorted l₁ = pySorted l₂ :=
  List.eq_of_perm_of_sorted
    ((List.perm_insertionSort pairLe l₁).trans
      (h.trans (List.perm_insertionSort pairLe l₂).symm))
    (List.sorted_insertionSort pairLe l₁)
    (List.sorted_insertionSort pairLe l₂)

lemma genSig_perm (ml : String) (amt : PyDecimal) (inv pw : String)
    {l₁ l₂ : List (String × String)} (h : l₁.Perm l₂) :
    generate_signature ml amt inv pw l₁ =
      generate_signature ml amt inv pw l₂ := by
  have hemp : l₁.isEmpty = l₂.isEmpty := by
    have hlen := h.length_eq
    cases l₁ <;> cases l₂ <;> simp_all
  simp only [generate_signature]
  rw [hemp, pySorted_congr h]

/-!  Lookup facts about the dict operations used by `get_payment_url`. -/

lemma lookupParam_append_some {xs : List (String × String)} {k v : String}
    (ys : List (String × String)) (h : lookupParam xs k = some v) :
    lookupParam (xs ++ ys) k = some v := by
  induction xs with
  | nil => simp [lookupParam] at h
  | cons p t ih =>
    simp only [lookupParam, List.cons_append] at h ⊢
    by_cases hp : (p.1 == k) = true
    · rw [if_pos hp] at h ⊢
      exact h
    · rw [if_neg hp] at h ⊢
      exact ih h

lemma lookupParam_append_none {xs : List (String × String)} {k : String}
    (ys : List (String × String)) (h : lookupParam xs k = none) :
    lookupParam (xs ++ ys) k = lookupParam ys k := by
  induction xs with
  | nil => rfl
  | cons p t ih =>
    simp only [lookupParam, List.cons_append] at h ⊢
    by_cases hp : (p.1 == k) = true
    · rw [if_pos hp] at h
      exact Option.noConfusion h
    · rw [if_neg hp] at h ⊢
      exact ih h

lemma any_eq_false_lookup {d : List (String × String)} {k : String}
    (h : (d.any fun p => p.1 == k) = false) : lookupParam d k = none := by
  induction d with
  | nil => rfl
  | cons p t ih =>
    simp only [List.any_cons, Bool.or_eq_false_iff] at h
    simp [lookupParam, h.1, ih h.2]

lemma lookupParam_cons (p : String × String) (t : List (String × String))
    (k : String) :
    lookupParam (p :: t) k =
      if p.1 == k then some p.2 else lookupParam t k := rfl

lemma lookup_mapSet {d : List (String × String)} {k : String} (v : String)
    (h : (d.any fun p => p.1 == k) = true) :
    lookupParam (d.map fun p => if p.1 == k then (p.1, v) else p) k =
      some v := by
  induction d with
  | nil => simp at h
  | cons p t ih =>
    simp only [List.any_cons, Bool.or_eq_true] at h
    by_cases hp : (p.1 == k) = true
    · have hpk : p.1 = k := by simpa using hp
      simp [lookupParam_cons, hpk]
    · have ihx := ih (h.resolve_left hp)
      simp only [List.map_cons, lookupParam_cons]
      rw [if_neg hp, if_neg hp]
      exact ihx

lemma lookup_mapSet_other (d : List (String × String)) {k k' : String}
    (v : String) (hk : k ≠ k') :
    lookupParam (d.map fun p => if p.1 == k then (p.1, v) else p) k' =
      lookupParam d k' := by
  induction d with
  | nil => rfl
  | cons p t ih =>
    simp only [List.map_cons, lookupParam_cons]
    by_cases hp : (p.1 == k) = true
    · have hpk : p.1 = k := by simpa using hp
      have hp2 : ¬((p.1 == k') = true) := by
        rw [hpk, beq_eq_false_iff_ne.mpr hk]
        exact fun hc => Bool.noConfusion hc
      rw [if_pos hp, if_neg hp2, if_neg hp2]
      exact ih
    · rw [if_neg hp]
      by_cases hq : (p.1 == k') = true
      · rw [if_pos hq, if_pos hq]
      · rw [if_neg hq, if_neg hq]
        exact ih

lemma lookupParam_dictSet_self (d : List (String × String)) (k v : String) :
    lookupParam (dictSet d k v) k = some v := by
  unfold dictSet
  by_cases h : (d.any fun p => p.1 == k) = true
  · rw [if_pos h]
    exact lookup_mapSet v h
  · rw [if_neg h]
    have hf : (d.any fun p => p.1 == k) = false := by
      cases hx : d.any fun p => p.1 == k
      · rfl
      · exact absurd hx h
    rw [lookupParam_append_none _ (any_eq_false_lookup hf)]
    simp [lookupParam]

lemma lookupParam_dictSet_other (d : List (String × String)) {k k' : String}
    (v : String) (hk : k ≠ k') :
    lookupParam (dictSet d k v) k' = lookupParam d k' := by
  unfold dictSet
  by_cases h : (d.any fun p => p.1 == k) = true
  · rw [if_pos h]
    exact lookup_mapSet_other d v hk
  · rw [if_neg h]
    cases hl : lookupParam d k' with
    | some w => exact lookupParam_append_some _ hl
    | none =>
      rw [lookupParam_append_none _ hl]
      have hkk : (k == k') = false := beq_eq_false_iff_ne.mpr hk
      simp [lookupParam, hkk]

lemma lookupParam_dictUpdate_not_mem :
    ∀ (l d : List (String × String)) (k : String),
      (∀ p ∈ l, p.1 ≠ k) →
      lookupParam (dictUpdate d l) k = lookupParam d k
  | [], _, _, _ => rfl
  | q :: t, d, k, h => by
    have hq : q.1 ≠ k := h q (List.mem_cons_self q t)
    have ht : ∀ p ∈ t, p.1 ≠ k := fun p hp => h p (List.mem_cons_of_mem q hp)
    have step : dictUpdate d (q :: t) = dictUpdate (dictSet d q.1 q.2) t := rfl
    rw [step, lookupParam_dictUpdate_not_mem t (dictSet d q.1 q.2) k ht,
      lookupParam_dictSet_other d q.2 hq]

lemma lookupParam_dictUpdate_mem :
    ∀ (l d : List (String × String)) (k v : String),
      (l.map Prod.fst).Nodup → (k, v) ∈ l →
      lookupParam (dictUpdate d l) k = some v
  | [], _, _, _, _, hm => absurd hm (List.not_mem_nil _)
  | q :: t, d, k, v, hnd, hm => by
    have step : dictUpdate d (q :: t) = dictUpdate (dictSet d q.1 q.2) t := rfl
    rw [step]
    rcases List.mem_cons.mp hm with he | hmt
    · have hq1 : q.1 = k := by rw [← he]
      have hq2 : q.2 = v := by rw [← he]
      have hmap : q.1 ∉ t.map Prod.fst := by
        simp only [List.map_cons, List.nodup_cons] at hnd
        exact hnd.1
      have hknot : ∀ p ∈ t, p.1 ≠ k := by
        intro p hp hpk
        exact hmap (by
          rw [hq1]
          exact hpk ▸ List.mem_map_of_mem Prod.fst hp)
      rw [lookupParam_dictUpdate_not_mem t _ k hknot, hq1, hq2]
      exact lookupParam_dictSet_self d k v
    · have hnd2 : (t.map Prod.fst).Nodup := by
        simp only [List.map_cons, List.nodup_cons] at hnd
        exact hnd.2
      exact lookupParam_dictUpdate_mem t (dictSet d q.1 q.2) k v hnd2 hmt

lemma lookupParam_payment_params (cfg : RobokassaConfig)
    (invoice_id : String) (amount : PyDecimal) (description : String)
    (email : Option String) (extra_params : List (String × String))
    (return_url : Option String) {k v : String}
    (hk : lookupParam [("MerchantLogin", cfg.merchant_login),
      ("Sum", formatF2 amount), ("InvoiceID", invoice_id),
      ("Description", description),
      ("SignatureValue", generate_signature cfg.merchant_login amount
        invoice_id cfg.password1 extra_params),
      ("IsTest", if cfg.test_mode then "1" else "0")] k = some v)
    (hex : ∀ p ∈ extra_params, p.1 ≠ k) :
    lookupParam (payment_params cfg invoice_id amount description email
      extra_params return_url) k = some v := by
  simp only [payment_params]
  split_ifs at hk ⊢ <;>
    (try rw [lookupParam_dictUpdate_not_mem extra_params _ k hex]) <;>
    first
      | exact lookupParam_append_some _ (lookupParam_append_some _ hk)
      | exact lookupParam_append_some _ hk
      | exact hk

lemma lookupParam_payment_params_override (cfg : RobokassaConfig)
    (invoice_id : String) (amount : PyDecimal) (description : String)
    (email : Option String) (extra_params : List (String × String))
    (return_url : Option String) {k v : String}
    (hnd : (extra_params.map Prod.fst).Nodup) (hm : (k, v) ∈ extra_params) :
    lookupParam (payment_params cfg invoice_id amount description email
      extra_params return_url) k = some v := by
  simp only [payment_params]
  have hne : extra_params.isEmpty = false := by
    cases extra_params
    · exact absurd hm (List.not_mem_nil _)
    · rfl
  rw [if_neg (by rw [hne]; exact fun hc => Bool.noConfusion hc)]
  exact lookupParam_dictUpdate_mem extra_params _ k v hnd hm

lemma pyLower_genSig (ml : String) (amt : PyDecimal) (inv pw : String)
    (extras : List (String × String)) :
    pyLower (generate_signature ml amt inv pw extras) =
      generate_signature ml amt inv pw extras :=
  pyLower_md5Hex _

end Robokassa

namespace Robokassa

/-- C1 counterexample: with `extra_params = {"Sum": "999"}` the value under
the reserved key `Sum` in the returned URL is the extraParams value `"999"`,
not the reserved value `"100.00"`: `params.update(extra_params)` runs last
and overwrites the reserved entry. -/
theorem extra_params_override_reserved_cex :
    lookupParam (payment_params ⟨"shop1", "pw1", "pw2", true⟩ "12345"
      ⟨10000, 2⟩ "Test Payment" none [("Sum", "999")] none) "Sum" =
        some "999" ∧
    formatF2 ⟨10000, 2⟩ = "100.00" ∧
    ("999" : String) ≠ "100.00" ∧
    get_payment_url ⟨"shop1", "pw1", "pw2", true⟩ "12345" ⟨10000, 2⟩
      "Test Payment" none [("Sum", "999")] none =
      "https://test.robokassa.ru/Merchant/Index?MerchantLogin=shop1&Sum=999&InvoiceID=12345&Description=Test+Payment&SignatureValue=9523b4b800665092fb912d8545fdab2d&IsTest=1" :=
  ⟨rfl, rfl, by decide, rfl⟩

/-- C1 (amended): key collisions between `extra_params` and the reserved
query parameters are resolved in favour of the extraParams value: for every
reserved key also present in `extra_params`, the value appearing under that
key in the returned URL is the extraParams value (replaced in place by
`params.update`). -/
theorem extra_params_override_reserved (cfg : RobokassaConfig)
    (invoice_id : String) (amount : PyDecimal) (description : String)
    (email return_url : Option String)
    (extra_params : List (String × String)) (k v : String)
    (hres : k ∈ reservedKeys) (hnd : (extra_params.map Prod.fst).Nodup)
    (hm : (k, v) ∈ extra_params) :
    lookupParam (payment_params cfg invoice_id amount description email
      extra_params return_url) k = some v :=
  lookupParam_payment_params_override cfg invoice_id amount description
    email extra_params return_url hnd hm

theorem extra_params_override_reserved_witness :
    lookupParam (payment_params ⟨"shop1", "pw1", "pw2", true⟩ "12345"
      ⟨10000, 2⟩ "Test Payment" none [("Sum", "999")] none) "Sum" =
      some "999" :=
  extra_params_override_reserved ⟨"shop1", "pw1", "pw2", true⟩ "12345"
    ⟨10000, 2⟩ "Test Payment" none none [("Sum", "999")] "Sum" "999"
    (by decide) (by decide) (by decide)

/-- C2: `_generate_signature` returns the MD5 hex digest of the string
`merchantLogin:AMOUNT:invoiceId:secret` with `AMOUNT` the amount formatted
to exactly two fractional digits and, when `extra_params` is non-empty,
`:key=value` appended for each pair sorted ascending (ordinal comparison);
the digest is always 32 lowercase hexadecimal characters, and on the
spec's example inputs it equals the MD5 hex of the literal string
`shop1:100.00:12345:pw1`. -/
theorem generate_signature_spec :
    (∀ (ml : String) (amt : PyDecimal) (inv pw : String)
        (extras : List (String × String)),
      generate_signature ml amt inv pw extras =
        md5Hex (specSignatureString ml amt inv pw extras)) ∧
    (∀ (ml : String) (amt : PyDecimal) (inv pw : String)
        (extras : List (String × String)),
      (generate_signature ml amt inv pw extras).length = 32 ∧
      (generate_signature ml amt inv pw extras).data.all isLowerHexChar =
        true) ∧
    specSignatureString "shop1" ⟨10000, 2⟩ "12345" "pw1" [] =
      "shop1:100.00:12345:pw1" ∧
    generate_signature "shop1" ⟨10000, 2⟩ "12345" "pw1" [] =
      md5Hex "shop1:100.00:12345:pw1" ∧
    md5Hex "shop1:100.00:12345:pw1" = "082fda2bb2122a1e594d091cd9bf32c4" := by
  refine ⟨genSig_eq_spec,
    fun ml amt inv pw extras => ⟨md5Hex_length _, md5Hex_all_hex _⟩,
    rfl, rfl, rfl⟩

/-- C3: `process_result_notification` is a total function (never raises):
it compares the received signature case-insensitively against the digest
recomputed with the inbound secret `password2`; on match it returns the
success outcome carrying the invoice id, amount and extra params, and on
mismatch the failure outcome with the reason `Invalid signature`. -/
theorem process_result_notification_spec :
    ∀ (cfg : RobokassaConfig) (amt : PyDecimal) (inv sig : String)
      (extras : List (String × String)),
      process_result_notification cfg amt inv sig extras =
        (if pyLower sig == pyLower (generate_signature cfg.merchant_login
            amt inv cfg.password2 extras)
         then NotificationOutcome.ok inv amt extras
         else NotificationOutcome.failure "Invalid signature" inv) := by
  intro cfg amt inv sig extras
  by_cases h : (pyLower sig == pyLower (generate_signature cfg.merchant_login
    amt inv cfg.password2 extras)) = true
  · simp [process_result_notification, verify_result_signature, h]
  · have hf : (pyLower sig == pyLower (generate_signature cfg.merchant_login
        amt inv cfg.password2 extras)) = false := by
      cases hx : pyLower sig == pyLower (generate_signature cfg.merchant_login
        amt inv cfg.password2 extras)
      · rfl
      · exact absurd hx h
    simp [process_result_notification, verify_result_signature, hf]

/-- C4: the `SignatureValue` placed in the payment URL is the digest signed
with the outbound secret `password1`; feeding it back into
`verify_result_signature` (which recomputes with the inbound secret
`password2`) yields `false` whenever the two digests differ, and yields
`true` when the outbound secret is deliberately reused as the inbound
secret. -/
theorem payment_roundtrip_secrets (cfg : RobokassaConfig)
    (invoice_id : String) (amount : PyDecimal) (description : String)
    (email return_url : Option String)
    (extra_params : List (String × String))
    (hsv : ∀ p ∈ extra_params, p.1 ≠ "SignatureValue") :
    lookupParam (payment_params cfg invoice_id amount description email
      extra_params return_url) "SignatureValue" =
      some (generate_signature cfg.merchant_login amount invoice_id
        cfg.password1 extra_params) ∧
    (generate_signature cfg.merchant_login amount invoice_id cfg.password1
        extra_params ≠
      generate_signature cfg.merchant_login amount invoice_id cfg.password2
        extra_params →
      verify_result_signature cfg amount invoice_id
        (generate_signature cfg.merchant_login amount invoice_id
          cfg.password1 extra_params) extra_params = false) ∧
    (cfg.password2 = cfg.password1 →
      verify_result_signature cfg amount invoice_id
        (generate_signature cfg.merchant_login amount invoice_id
          cfg.password1 extra_params) extra_params = true) := by
  refine ⟨lookupParam_payment_params cfg invoice_id amount description
    email extra_params return_url (by rfl) hsv, ?_, ?_⟩
  · intro hne
    simp only [verify_result_signature]
    rw [pyLower_genSig, pyLower_genSig]
    exact beq_eq_false_iff_ne.mpr hne
  · intro hpp
    simp only [verify_result_signature]
    rw [hpp]
    simp

theorem payment_roundtrip_secrets_witness :
    verify_result_signature ⟨"shop1", "pw1", "pw2", false⟩ ⟨10000, 2⟩
      "12345" (generate_signature "shop1" ⟨10000, 2⟩ "12345" "pw1" []) [] =
      false ∧
    verify_result_signature ⟨"shop1", "pw1", "pw1", false⟩ ⟨10000, 2⟩
      "12345" (generate_signature "shop1" ⟨10000, 2⟩ "12345" "pw1" []) [] =
      true :=
  ⟨(payment_roundtrip_secrets ⟨"shop1", "pw1", "pw2", false⟩ "12345"
      ⟨10000, 2⟩ "d" none none [] (by decide)).2.1 (by decide),
   (payment_roundtrip_secrets ⟨"shop1", "pw1", "pw1", false⟩ "12345"
      ⟨10000, 2⟩ "d" none none [] (by decide)).2.2 rfl⟩

/-- C5 counterexample to the claim as stated: the repository's exception
module defines no `ValidationError` class at all (only PaymentException,
UserException and DatabaseException), and `_generate_signature` has no
error path: it returns a 32-character digest for every input, so no
malformed-amount input can make the wrapper raise a `ValidationError`. -/
theorem no_validation_error_cex :
    ("ValidationError" ∉ appExceptionClasses) ∧
    (generate_signature "shop1" ⟨10000, 2⟩ "12345" "pw1" []).length = 32 :=
  ⟨by decide, rfl⟩

/-- C5 (amended): `computeSignature` has no error condition at all: it is a
total pure function returning a 32-character digest for every input; the
repository performs no amount validation and defines no `ValidationError`
(its exception module defines exactly PaymentException, UserException and
DatabaseException). -/
theorem no_validation_error :
    (∀ (ml : String) (amt : PyDecimal) (inv pw : String)
        (extras : List (String × String)),
      (generate_signature ml amt inv pw extras).length = 32) ∧
    appExceptionClasses =
      ["PaymentException", "UserException", "DatabaseException"] ∧
    "ValidationError" ∉ appExceptionClasses :=
  ⟨fun ml amt inv pw extras => md5Hex_length _, rfl, by decide⟩

/-- C6: reordering `extra_params` (same key-value pairs, any order) never
changes the resulting signature, the verdict of `verify_result_signature`,
or the `SignatureValue` placed in the payment URL. -/
theorem signature_order_invariant (ml : String) (amt : PyDecimal)
    (inv pw : String) (l₁ l₂ : List (String × String)) (h : l₁.Perm l₂) :
    generate_signature ml amt inv pw l₁ =
      generate_signature ml amt inv pw l₂ ∧
    (∀ (cfg : RobokassaConfig) (sig : String),
      verify_result_signature cfg amt inv sig l₁ =
        verify_result_signature cfg amt inv sig l₂) ∧
    (∀ (cfg : RobokassaConfig) (desc : String) (email ret : Option String),
      (∀ p ∈ l₁, p.1 ≠ "SignatureValue") →
      lookupParam (payment_params cfg inv amt desc email l₁ ret)
          "SignatureValue" =
        lookupParam (payment_params cfg inv amt desc email l₂ ret)
          "SignatureValue") := by
  refine ⟨genSig_perm ml amt inv pw h, ?_, ?_⟩
  · intro cfg sig
    simp only [verify_result_signature]
    rw [genSig_perm cfg.merchant_login amt inv cfg.password2 h]
  · intro cfg desc email ret hsv
    have hsv2 : ∀ p ∈ l₂, p.1 ≠ "SignatureValue" := fun p hp =>
      hsv p (h.mem_iff.mpr hp)
    have h1 := lookupParam_payment_params cfg inv amt desc email l₁ ret
      (by rfl) hsv
    have h2 := lookupParam_payment_params cfg inv amt desc email l₂ ret
      (by rfl) hsv2
    rw [h1, h2, genSig_perm cfg.merchant_login amt inv cfg.password1 h]

theorem signature_order_invariant_witness :
    generate_signature "shop1" ⟨10000, 2⟩ "12345" "pw1"
        [("b", "2"), ("a", "1")] =
      generate_signature "shop1" ⟨10000, 2⟩ "12345" "pw1"
        [("a", "1"), ("b", "2")] ∧
    lookupParam (payment_params ⟨"shop1", "pw1", "pw2", false⟩ "12345"
        ⟨10000, 2⟩ "d" none [("b", "2"), ("a", "1")] none)
        "SignatureValue" =
      lookupParam (payment_params ⟨"shop1", "pw1", "pw2", false⟩ "12345"
        ⟨10000, 2⟩ "d" none [("a", "1"), ("b", "2")] none)
        "SignatureValue" :=
  ⟨(signature_order_invariant "shop1" ⟨10000, 2⟩ "12345" "pw1" _ _
      (List.Perm.swap _ _ _)).1,
   (signature_order_invariant "shop1" ⟨10000, 2⟩ "12345" "pw1" _ _
      (List.Perm.swap _ _ _)).2.2 ⟨"shop1", "pw1", "pw2", false⟩ "d" none
      none (by decide)⟩

/-- C7 counterexample: with `extra_params = {"Sum": "1"}` the URL's `Sum`
parameter carries `"1"` while the digest input still contains the
formatted amount `100.00`, so the two amount strings differ. -/
theorem sum_amount_mismatch_cex :
    lookupParam (payment_params ⟨"shop2", "pw1", "pw2", false⟩ "77"
      ⟨10000, 2⟩ "Order" none [("Sum", "1")] none) "Sum" = some "1" ∧
    formatF2 ⟨10000, 2⟩ = "100.00" ∧
    (some "1" : Option String) ≠ some (formatF2 ⟨10000, 2⟩) ∧
    generate_signature "shop2" ⟨10000, 2⟩ "77" "pw1" [("Sum", "1")] =
      md5Hex "shop2:100.00:77:pw1:Sum=1" :=
  ⟨rfl, rfl, by decide, rfl⟩

/-- C7 (amended): provided `extra_params` does not contain the key `Sum`,
the amount string placed under the URL's `Sum` parameter is exactly
`formatF2 amount`, the same two-fractional-digit fixed-point string that
`_generate_signature` concatenates into the digest input (visible as the
second `:`-separated field of `specSignatureString`). -/
theorem sum_amount_consistent (cfg : RobokassaConfig) (invoice_id : String)
    (amount : PyDecimal) (description : String)
    (email return_url : Option String)
    (extra_params : List (String × String))
    (hsum : ∀ p ∈ extra_params, p.1 ≠ "Sum") :
    lookupParam (payment_params cfg invoice_id amount description email
      extra_params return_url) "Sum" = some (formatF2 amount) ∧
    generate_signature cfg.merchant_login amount invoice_id cfg.password1
        extra_params =
      md5Hex (specSignatureString cfg.merchant_login amount invoice_id
        cfg.password1 extra_params) :=
  ⟨lookupParam_payment_params cfg invoice_id amount description email
    extra_params return_url (by rfl) hsum, genSig_eq_spec _ _ _ _ _⟩

theorem sum_amount_consistent_witness :
    lookupParam (payment_params ⟨"shop1", "pw1", "pw2", false⟩ "12345"
      ⟨10000, 2⟩ "Order" none [("shp_item", "3")] none) "Sum" =
      some (formatF2 ⟨10000, 2⟩) :=
  (sum_amount_consistent ⟨"shop1", "pw1", "pw2", false⟩ "12345" ⟨10000, 2⟩
    "Order" none none [("shp_item", "3")] (by decide)).1

/-- C8: the `:`-joined, unescaped encoding of the digest input is not
injective: the distinct extra-parameter mappings `{"a": "b", "c": "d"}`
and `{"a": "b:c=d"}` produce the identical digest input string and hence
the identical signature, so `verify_result_signature` accepts a
notification whose extra parameters differ from the ones originally
signed. -/
theorem signature_encoding_collision :
    ([("a", "b"), ("c", "d")] : List (String × String)) ≠ [("a", "b:c=d")] ∧
    specSignatureString "shop1" ⟨10000, 2⟩ "12345" "pw2"
        [("a", "b"), ("c", "d")] =
      specSignatureString "shop1" ⟨10000, 2⟩ "12345" "pw2"
        [("a", "b:c=d")] ∧
    generate_signature "shop1" ⟨10000, 2⟩ "12345" "pw2"
        [("a", "b"), ("c", "d")] =
      generate_signature "shop1" ⟨10000, 2⟩ "12345" "pw2" [("a", "b:c=d")] ∧
    verify_result_signature ⟨"shop1", "pw1", "pw2", false⟩ ⟨10000, 2⟩
      "12345" (generate_signature "shop1" ⟨10000, 2⟩ "12345" "pw2"
        [("a", "b"), ("c", "d")]) [("a", "b:c=d")] = true :=
  ⟨by decide, rfl, rfl, rfl⟩

/-- C9: when the single HTTP attempt raises a transport error,
`check_payment_status` returns the structured failure payload carrying the
exception's (non-empty) message instead of propagating the exception, and
it issues exactly one request, with timeout 10 and no retries. -/
theorem check_payment_status_transport_error (β : Type)
    (invoice_id msg : String) (transport : HttpRequest → HttpOutcome β)
    (hexc : transport ⟨"GET", api_url ++ "/GetInvoiceInfo",
      [("InvoiceID", invoice_id)], 10⟩ = HttpOutcome.exc msg)
    (hmsg : msg ≠ "") :
    (check_payment_status invoice_id transport).1 =
      StatusResult.failure msg ∧
    (∃ e, (check_payment_status invoice_id transport).1 =
      StatusResult.failure e ∧ e ≠ "") ∧
    (check_payment_status invoice_id transport).2 =
      [⟨"GET", api_url ++ "/GetInvoiceInfo",
        [("InvoiceID", invoice_id)], 10⟩] ∧
    (check_payment_status invoice_id transport).2.length = 1 ∧
    ∀ r ∈ (check_payment_status invoice_id transport).2, r.timeout = 10 := by
  have hres : check_payment_status invoice_id transport =
      (StatusResult.failure msg, [⟨"GET", api_url ++ "/GetInvoiceInfo",
        [("InvoiceID", invoice_id)], 10⟩]) := by
    simp only [check_payment_status, hexc]
  rw [hres]
  refine ⟨rfl, ⟨msg, rfl, hmsg⟩, rfl, rfl, ?_⟩
  intro r hr
  rw [List.mem_singleton] at hr
  rw [hr]

theorem check_payment_status_transport_error_witness :
    (check_payment_status "42" fun _ =>
      (HttpOutcome.exc "Connection timed out" : HttpOutcome Unit)).1 =
      StatusResult.failure "Connection timed out" :=
  (check_payment_status_transport_error Unit "42" "Connection timed out"
    (fun _ => HttpOutcome.exc "Connection timed out") rfl (by decide)).1

/-- C10: `get_notification_response` returns exactly `"OK"` immediately
followed by the invoice id; in particular it maps `"999"` to `"OK999"`. -/
theorem notification_response_spec :
    (∀ invoice_id : String,
      get_notification_response invoice_id = "OK" ++ invoice_id) ∧
    get_notification_response "999" = "OK999" :=
  ⟨fun _ => rfl, rfl⟩

end Robokassa
